import Mathlib

/-!
Verification of the annotator UI wiring module against its specification.

The repository has two variants of the same module:
  * `src/src/ui/main.js` — embedded below in namespace `UiMain`;
  * `src/unnamed/part_000` — embedded below in namespace `UiMainP0`.

The embedding is shallow: JS objects become structures, JS collaborator
methods become function-valued fields, host-application calls
(`app.annotations.create` and friends, adder/highlighter operations) become
explicit effect values, and the mutable module-local `state` object is
threaded explicitly.  `console.log` calls are modelled as an explicit log
channel (a list of `LogEvent`s) so that logging is observable but separate
from the returned values.  An absent key of a JS object is `none`.
-/

namespace Annotator

/-- A point on the page: the `{top, left}` objects produced by
`util.mousePosition(event)` and by reading the viewer element's css. -/
structure Point where
  top : Int
  left : Int
  deriving DecidableEq

/-- A selected text range collaborator.  `text` models the result of
`r.text()` and `serialize` models `r.serialize(contextEl, ignoreSelector)`;
both are opaque range-package operations from the module's point of view. -/
structure Range (E SR : Type) where
  text : String
  serialize : E → String → SR

/-- The domain entity (an "annotation"): a JS object holding a `ranges` key
(a list of serialized selection ranges) and an optional `permissions` key, a
mapping from action name to a list of authorized user identifiers.  The
`permissions` mapping is embedded as an association list; `none` models the
key being absent from the object. -/
structure Annot (SR U : Type) where
  ranges : List SR
  permissions : Option (List (String × List U))
  deriving DecidableEq

/-- One `console.log` call as the source performs it: the tag
`'serializedRange'` together with the serialized range, or the tag
`'new annotation!'` together with the freshly built annotation. -/
inductive LogEvent (SR U : Type) where
  | serializedRangeLogged (sr : SR)
  | newAnnLogged (ann : Annot SR U)
  deriving DecidableEq

/-- The identity policy utility: `who()` is the current user, `none` when no
user is set (JS `undefined` or `null`). -/
structure IdentityPolicy (U : Type) where
  who : Option U

/-- The authorization policy utility: `permits(action, annotation, user)`
and `authorizedUserId(user)`. -/
structure AuthorizationPolicy (SR U : Type) where
  permits : String → Annot SR U → Option U → Bool
  authorizedUserId : U → U

/-- The host application's registry.  `getUtility('identityPolicy')` and
`getUtility('authorizationPolicy')` are embedded as the two fields. -/
structure Registry (SR U : Type) where
  identityPolicy : IdentityPolicy U
  authorizationPolicy : AuthorizationPolicy SR U

/-- The host application object, as far as this module touches it. -/
structure App (SR U : Type) where
  registry : Registry SR U

/-- The collaborator fields of the module-local `state` object. -/
inductive CollabField where
  | adder
  | editor
  | highlighter
  | textselector
  | viewer
  deriving DecidableEq

/-- The module-local `state` object.  Each collaborator field records
whether `start` has assigned it (a JS field that was never assigned is
`undefined`, modelled as `false`; dereferencing it throws). -/
structure ModState where
  interactionPoint : Option Point
  adder : Bool
  editor : Bool
  highlighter : Bool
  textselector : Bool
  viewer : Bool
  deriving DecidableEq

/-- `var state = { interactionPoint: null }`: only `interactionPoint` is
present, every collaborator field is still unassigned. -/
def initState : ModState :=
  { interactionPoint := none, adder := false, editor := false,
    highlighter := false, textselector := false, viewer := false }

/-- Calls the module makes on the host application and on the adder widget. -/
inductive UIEffect (SR U : Type) where
  | appCreate (ann : Annot SR U)
  | appUpdate (ann : Annot SR U)
  | appDelete (ann : Annot SR U)
  | adderLoad (ann : Annot SR U) (pos : Option Point)
  | adderHide
  deriving DecidableEq

/-- The operation a lifecycle callback dispatches to on `state.highlighter`. -/
inductive HlOp (SR U : Type) where
  | drawAll (anns : List (Annot SR U))
  | draw (ann : Annot SR U)
  | undraw (ann : Annot SR U)
  | redraw (ann : Annot SR U)
  deriving DecidableEq

/-- The outcome of the deferred result (promise) returned by
`beforeAnnotationCreated` / `beforeAnnotationUpdated`. -/
inductive Deferred where
  | resolved
  | rejected
  deriving DecidableEq

/-- The configuration object `main` accepts: the recognized keys `element`,
`editorExtensions` and `viewerExtensions`, each possibly absent. -/
structure Options (E EExt VExt : Type) where
  element : Option E
  editorExtensions : Option (List EExt)
  viewerExtensions : Option (List VExt)

/-- The options object handed to `new viewer.Viewer({...})` by `start`
(identical shape in both variants of the module). -/
structure ViewerOptions (E SR U VExt : Type) where
  onEdit : Annot SR U → ModState → ModState × List (UIEffect SR U)
  onDelete : Annot SR U → UIEffect SR U
  permitEdit : Annot SR U → Bool
  permitDelete : Annot SR U → Bool
  autoViewHighlights : E
  extensions : List VExt

/-- `util.gettext` (`_t`): the i18n passthrough on message strings. -/
def gettext (s : String) : String := s

/-- JS `delete obj[k]` on a `permissions` object embedded as an association
list: the key's entry is removed. -/
def permsRemove {U : Type} (ps : List (String × List U)) (k : String) :
    List (String × List U) :=
  ps.filter fun p => !(p.1 == k)

/-- JS `obj[k] = v` on a `permissions` object embedded as an association
list: an existing entry for the key is overwritten in place, otherwise the
entry is appended. -/
def permsSet {U : Type} (ps : List (String × List U)) (k : String)
    (v : List U) : List (String × List U) :=
  if ps.any (fun p => p.1 == k) then
    ps.map fun p => if p.1 == k then (k, v) else p
  else
    ps ++ [(k, v)]

/-- JS `obj[k]` on a `permissions` object embedded as an association list. -/
def permsLookup {U : Type} (ps : List (String × List U)) (k : String) :
    Option (List U) :=
  (ps.find? fun p => p.1 == k).map fun p => p.2

variable {E SR U Ev EExt VExt : Type}

/-! ## The module of `src/src/ui/main.js` -/

namespace UiMain

/-- The resolved options after `main`'s defaulting prelude in this variant:
`element` and `viewerExtensions` are defaulted, `editorExtensions` is left
exactly as passed (this file never touches it). -/
structure ResolvedOptions (E EExt VExt : Type) where
  element : E
  editorExtensions : Option (List EExt)
  viewerExtensions : List VExt

/-- Lines 71-76 of `src/src/ui/main.js`: an undefined or null `options`
becomes `{}`, `options.element` defaults to `document.body` (the
`documentBody` argument) and `options.viewerExtensions` defaults to `[]`.
No line of this variant defaults `options.editorExtensions`. -/
def mainOptions (documentBody : E) (options : Option (Options E EExt VExt)) :
    ResolvedOptions E EExt VExt :=
  let o := options.getD
    { element := none, editorExtensions := none, viewerExtensions := none }
  { element := o.element.getD documentBody
    editorExtensions := o.editorExtensions
    viewerExtensions := o.viewerExtensions.getD [] }

/-- The loop body of the function returned by `annotationFactory` (lines
16-26): one pass over `ranges`, pushing the trimmed text onto `text`, the
serialized range onto `serializedRanges`, and logging each serialized range
(`console.log('serializedRange', serializedRange)`). -/
def annotationFactoryLoop (contextEl : E) (ignoreSelector : String) :
    List (Range E SR) → List String → List SR → List (LogEvent SR U) →
      List String × List SR × List (LogEvent SR U)
  | [], text, serializedRanges, logs => (text, serializedRanges, logs)
  | r :: rest, text, serializedRanges, logs =>
      let serializedRange := r.serialize contextEl ignoreSelector
      annotationFactoryLoop contextEl ignoreSelector rest
        (text ++ [r.text.trim])
        (serializedRanges ++ [serializedRange])
        (logs ++ [LogEvent.serializedRangeLogged serializedRange])

/-- `annotationFactory(contextEl, ignoreSelector)` applied to a range list:
returns the object `{ ranges: serializedRanges }` (no other key; the `text`
accumulator is discarded) together with what the loop logged. -/
def annotationFactory (contextEl : E) (ignoreSelector : String)
    (ranges : List (Range E SR)) : Annot SR U × List (LogEvent SR U) :=
  let out := annotationFactoryLoop contextEl ignoreSelector ranges [] [] []
  ({ ranges := out.2.1, permissions := none }, out.2.2)

/-- What `start(app)` produces in this variant: the updated module state and
the two callback bundles it installs (the text selector's `onSelection`
handler and the viewer's options).  `onSelection` returns the updated state,
the host-application effects, and the `console.log` output. -/
structure StartResult (E SR U Ev VExt : Type) where
  state : ModState
  onSelection : List (Range E SR) → Ev → ModState →
    ModState × List (UIEffect SR U) × List (LogEvent SR U)
  viewerOptions : ViewerOptions E SR U VExt

/-- Lines 86-124 of `src/src/ui/main.js`.  The identity and authorization
policies are obtained from `app.registry`; `state.highlighter`,
`state.textselector` and `state.viewer` are assigned (this variant creates
no adder and no editor).  `mousePos` stands for `util.mousePosition` and
`viewerCssTopLeft` for the `{top, left}` css read off the viewer element in
`onEdit`.  `makeAnn` is the factory `main` let-binds over `options.element`
and the ignore selector `'.annotator-hl'`. -/
def start (mousePos : Ev → Point) (viewerCssTopLeft : Point)
    (opts : ResolvedOptions E EExt VExt) (app : App SR U) (st : ModState) :
    StartResult E SR U Ev VExt :=
  let ident := app.registry.identityPolicy
  let authz := app.registry.authorizationPolicy
  let makeAnn : List (Range E SR) → Annot SR U × List (LogEvent SR U) :=
    annotationFactory opts.element ".annotator-hl"
  { state := { st with highlighter := true, textselector := true, viewer := true }
    onSelection := fun ranges event s =>
      if ranges.length > 0 then
        let made := makeAnn ranges
        ({ s with interactionPoint := some (mousePos event) },
          [UIEffect.appCreate made.1],
          made.2 ++ [LogEvent.newAnnLogged made.1])
      else
        (s, [], [])
    viewerOptions :=
      { onEdit := fun ann s =>
          ({ s with interactionPoint := some viewerCssTopLeft },
            [UIEffect.appUpdate ann])
        onDelete := fun ann => UIEffect.appDelete ann
        permitEdit := fun ann => authz.permits "update" ann ident.who
        permitDelete := fun ann => authz.permits "delete" ann ident.who
        autoViewHighlights := opts.element
        extensions := opts.viewerExtensions } }

/-- Lines 129-135: `destroy` calls `.destroy()` on `state.editor`,
`state.highlighter`, `state.textselector` and `state.viewer` in that order
(and then removes the dynamic stylesheet, a pure DOM update).  Dereferencing
a collaborator field that was never assigned throws, modelled as
`Except.error` naming the first unassigned field read. -/
def destroy (st : ModState) : Except CollabField Unit :=
  if !st.editor then Except.error CollabField.editor
  else if !st.highlighter then Except.error CollabField.highlighter
  else if !st.textselector then Except.error CollabField.textselector
  else if !st.viewer then Except.error CollabField.viewer
  else Except.ok ()

/-- The object `main` returns in this variant: exactly the eight lifecycle
members `start`, `destroy`, `annotationsLoaded`, `annotationCreated`,
`annotationDeleted`, `annotationUpdated`, `beforeAnnotationCreated` and
`beforeAnnotationUpdated`. -/
structure AnnotatorModule (E SR U Ev VExt : Type) where
  start : App SR U → ModState → StartResult E SR U Ev VExt
  destroy : ModState → Except CollabField Unit
  annotationsLoaded : List (Annot SR U) → HlOp SR U
  annotationCreated : Annot SR U → HlOp SR U
  annotationDeleted : Annot SR U → HlOp SR U
  annotationUpdated : Annot SR U → HlOp SR U
  beforeAnnotationCreated : Annot SR U → Deferred
  beforeAnnotationUpdated : Annot SR U → Deferred

/-- Lines 70-156 of `src/src/ui/main.js`.  In this variant
`beforeAnnotationCreated` and `beforeAnnotationUpdated` return
`Promise.resolve()` unconditionally: the `state.editor.load(...)` call is
commented out in the source, so the returned deferred is always resolved. -/
def main (mousePos : Ev → Point) (documentBody : E) (viewerCssTopLeft : Point)
    (options : Option (Options E EExt VExt)) :
    AnnotatorModule E SR U Ev VExt :=
  let opts := mainOptions documentBody options
  { start := UiMain.start mousePos viewerCssTopLeft opts
    destroy := UiMain.destroy
    annotationsLoaded := fun anns => HlOp.drawAll anns
    annotationCreated := fun ann => HlOp.draw ann
    annotationDeleted := fun ann => HlOp.undraw ann
    annotationUpdated := fun ann => HlOp.redraw ann
    beforeAnnotationCreated := fun _ => Deferred.resolved
    beforeAnnotationUpdated := fun _ => Deferred.resolved }

end UiMain

/-! ## The module of `src/unnamed/part_000` -/

namespace UiMainP0

/-- The resolved options after `main`'s defaulting prelude in this variant:
all three recognized keys are defaulted (lines 139-145). -/
structure ResolvedOptions (E EExt VExt : Type) where
  element : E
  editorExtensions : List EExt
  viewerExtensions : List VExt

/-- Lines 139-145 of `src/unnamed/part_000`: an undefined or null `options`
becomes `{}`, `options.element` defaults to `document.body`, and both
extension lists default to `[]`. -/
def mainOptions (documentBody : E) (options : Option (Options E EExt VExt)) :
    ResolvedOptions E EExt VExt :=
  let o := options.getD
    { element := none, editorExtensions := none, viewerExtensions := none }
  { element := o.element.getD documentBody
    editorExtensions := o.editorExtensions.getD []
    viewerExtensions := o.viewerExtensions.getD [] }

/-- The loop body of the function returned by `annotationFactory` (lines
17-25 of `src/unnamed/part_000`): one pass over `ranges`, pushing the
trimmed text onto `text` and the serialized range onto `serializedRanges`.
This variant logs nothing. -/
def annotationFactoryLoop (contextEl : E) (ignoreSelector : String) :
    List (Range E SR) → List String → List SR → List String × List SR
  | [], text, serializedRanges => (text, serializedRanges)
  | r :: rest, text, serializedRanges =>
      annotationFactoryLoop contextEl ignoreSelector rest
        (text ++ [r.text.trim])
        (serializedRanges ++ [r.serialize contextEl ignoreSelector])

/-- `annotationFactory(contextEl, ignoreSelector)` applied to a range list:
returns the object `{ ranges: serializedRanges }` (no other key; the `text`
accumulator is discarded). -/
def annotationFactory (contextEl : E) (ignoreSelector : String)
    (ranges : List (Range E SR)) : Annot SR U :=
  let out := annotationFactoryLoop contextEl ignoreSelector ranges [] []
  { ranges := out.2, permissions := none }

/-- A field added to the editor by `editor.addField({...})`.  The source's
`load(field, annotation)` callback only manipulates the field's DOM (shows
or hides it, checks or unchecks its input), so it is embedded as the pair
(field visible, input checked) it leaves behind; `submit(field, annotation)`
reads the input's checked state (the `Bool` argument) and returns the
updated annotation. -/
structure EditorField (SR U : Type) where
  fieldType : String
  label : String
  load : Annot SR U → Bool × Bool
  submit : Bool → Annot SR U → Annot SR U

/-- Lines 40-64 of `src/unnamed/part_000`, `createLoadCallback(action)`: the
field is shown, then hidden when no user is set and hidden when the current
user is not permitted `'admin'` on the annotation; the checkbox is checked
exactly when the action is permitted with a null user.  Result: (field
visible, input checked). -/
def createLoadCallback (ident : IdentityPolicy U)
    (authz : AuthorizationPolicy SR U) (action : String)
    (ann : Annot SR U) : Bool × Bool :=
  let u := ident.who
  (u.isSome && authz.permits "admin" ann u, authz.permits action ann none)

/-- Lines 66-90 of `src/unnamed/part_000`, `createSubmitCallback(action)`:
with no user set the annotation is returned untouched; otherwise a missing
`permissions` object is first replaced by `{}`, then a checked box deletes
the action's key and an unchecked box sets it to the one-element list
holding `authz.authorizedUserId(u)`. -/
def createSubmitCallback (ident : IdentityPolicy U)
    (authz : AuthorizationPolicy SR U) (action : String)
    (checked : Bool) (ann : Annot SR U) : Annot SR U :=
  match ident.who with
  | none => ann
  | some u =>
      let ps := ann.permissions.getD []
      if checked then
        { ann with permissions := some (permsRemove ps action) }
      else
        { ann with permissions := some (permsSet ps action [authz.authorizedUserId u]) }

/-- Lines 92-105 of `src/unnamed/part_000`: the two checkbox fields added to
the editor, wiring the `'read'` action to the view checkbox and the
`'update'` action to the edit checkbox. -/
def addPermissionsCheckboxes (ident : IdentityPolicy U)
    (authz : AuthorizationPolicy SR U) : List (EditorField SR U) :=
  [ { fieldType := "checkbox"
      label := gettext "Allow anyone to <strong>view</strong> this annotation"
      load := fun ann => createLoadCallback ident authz "read" ann
      submit := fun checked ann => createSubmitCallback ident authz "read" checked ann }
  , { fieldType := "checkbox"
      label := gettext "Allow anyone to <strong>edit</strong> this annotation"
      load := fun ann => createLoadCallback ident authz "update" ann
      submit := fun checked ann => createSubmitCallback ident authz "update" checked ann } ]

/-- Modelled from the spec: the editor collaborator (`src/ui/editor`) is not
among the repository files given, only its call sites are.  Per the spec's
error-handling section and the comment above `beforeAnnotationCreated`,
`Editor#load(annotation, position)` returns a deferred result that is
resolved if editing completes and rejected if editing is cancelled; the
`cancelled` argument is that user-interaction outcome. -/
def editorLoad (_ann : Annot SR U) (_position : Option Point)
    (cancelled : Bool) : Deferred :=
  if cancelled then Deferred.rejected else Deferred.resolved

/-- What `start(app)` produces in this variant: the updated module state,
the adder's `onCreate` callback, the editor fields added by
`addPermissionsCheckboxes`, the text selector's `onSelection` handler and
the viewer's options. -/
structure StartResult (E SR U Ev VExt : Type) where
  state : ModState
  adderOnCreate : Annot SR U → UIEffect SR U
  editorFields : List (EditorField SR U)
  onSelection : List (Range E SR) → Ev → ModState →
    ModState × List (UIEffect SR U)
  viewerOptions : ViewerOptions E SR U VExt

/-- Lines 155-208 of `src/unnamed/part_000`.  The identity and authorization
policies are obtained from `app.registry`; `state.adder`, `state.editor`,
`state.highlighter`, `state.textselector` and `state.viewer` are all
assigned.  `onSelection` with a non-empty range list builds the annotation,
stores the mouse position as the interaction point and loads the adder with
the annotation at that point; with an empty range list it hides the adder. -/
def start (mousePos : Ev → Point) (viewerCssTopLeft : Point)
    (opts : ResolvedOptions E EExt VExt) (app : App SR U) (st : ModState) :
    StartResult E SR U Ev VExt :=
  let ident := app.registry.identityPolicy
  let authz := app.registry.authorizationPolicy
  let makeAnn : List (Range E SR) → Annot SR U :=
    annotationFactory opts.element ".annotator-hl"
  { state :=
      { st with adder := true, editor := true, highlighter := true,
                textselector := true, viewer := true }
    adderOnCreate := fun ann => UIEffect.appCreate ann
    editorFields := addPermissionsCheckboxes ident authz
    onSelection := fun ranges event s =>
      if ranges.length > 0 then
        let ann := makeAnn ranges
        let point := some (mousePos event)
        ({ s with interactionPoint := point }, [UIEffect.adderLoad ann point])
      else
        (s, [UIEffect.adderHide])
    viewerOptions :=
      { onEdit := fun ann s =>
          ({ s with interactionPoint := some viewerCssTopLeft },
            [UIEffect.appUpdate ann])
        onDelete := fun ann => UIEffect.appDelete ann
        permitEdit := fun ann => authz.permits "update" ann ident.who
        permitDelete := fun ann => authz.permits "delete" ann ident.who
        autoViewHighlights := opts.element
        extensions := opts.viewerExtensions } }

/-- Lines 213-220: `destroy` calls `.destroy()` on `state.adder`,
`state.editor`, `state.highlighter`, `state.textselector` and
`state.viewer` in that order (then removes the dynamic stylesheet). -/
def destroy (st : ModState) : Except CollabField Unit :=
  if !st.adder then Except.error CollabField.adder
  else if !st.editor then Except.error CollabField.editor
  else if !st.highlighter then Except.error CollabField.highlighter
  else if !st.textselector then Except.error CollabField.textselector
  else if !st.viewer then Except.error CollabField.viewer
  else Except.ok ()

/-- The object `main` returns in this variant: exactly the eight lifecycle
members.  `beforeAnnotationCreated` and `beforeAnnotationUpdated` take the
module state (for `state.interactionPoint`) and the user-interaction
outcome, since they return `state.editor.load(annotation,
state.interactionPoint)`. -/
structure AnnotatorModule (E SR U Ev VExt : Type) where
  start : App SR U → ModState → StartResult E SR U Ev VExt
  destroy : ModState → Except CollabField Unit
  annotationsLoaded : List (Annot SR U) → HlOp SR U
  annotationCreated : Annot SR U → HlOp SR U
  annotationDeleted : Annot SR U → HlOp SR U
  annotationUpdated : Annot SR U → HlOp SR U
  beforeAnnotationCreated : Annot SR U → ModState → Bool → Deferred
  beforeAnnotationUpdated : Annot SR U → ModState → Bool → Deferred

/-- Lines 138-239 of `src/unnamed/part_000`. -/
def main (mousePos : Ev → Point) (documentBody : E) (viewerCssTopLeft : Point)
    (options : Option (Options E EExt VExt)) :
    AnnotatorModule E SR U Ev VExt :=
  let opts := mainOptions documentBody options
  { start := UiMainP0.start mousePos viewerCssTopLeft opts
    destroy := UiMainP0.destroy
    annotationsLoaded := fun anns => HlOp.drawAll anns
    annotationCreated := fun ann => HlOp.draw ann
    annotationDeleted := fun ann => HlOp.undraw ann
    annotationUpdated := fun ann => HlOp.redraw ann
    beforeAnnotationCreated := fun ann s cancelled =>
      editorLoad ann s.interactionPoint cancelled
    beforeAnnotationUpdated := fun ann s cancelled =>
      editorLoad ann s.interactionPoint cancelled }

end UiMainP0

/-! ## Concrete instances used to evaluate the embedding -/

/-- A concrete range whose serialization against context element `c` is
`c + 1`. -/
def rangeW : Range Nat Nat :=
  { text := " hello ", serialize := fun c _ => c + 1 }

/-- A concrete identity policy whose current user is `7`. -/
def identW : IdentityPolicy Nat := { who := some 7 }

/-- A concrete authorization policy permitting everything. -/
def authzW : AuthorizationPolicy Nat Nat :=
  { permits := fun _ _ _ => true, authorizedUserId := fun u => u }

/-- A concrete host application built from `identW` and `authzW`. -/
def appW : App Nat Nat :=
  { registry := { identityPolicy := identW, authorizationPolicy := authzW } }

/-- Concrete resolved options for the `UiMain` variant. -/
def optsW : UiMain.ResolvedOptions Nat Nat Nat :=
  { element := 5, editorExtensions := none, viewerExtensions := [] }

/-- Concrete resolved options for the `UiMainP0` variant. -/
def optsP0W : UiMainP0.ResolvedOptions Nat Nat Nat :=
  { element := 5, editorExtensions := [], viewerExtensions := [] }

/-- A concrete annotation carrying a `read` permissions entry. -/
def annW : Annot Nat Nat :=
  { ranges := [], permissions := some [("read", [1, 2])] }

/-- A concrete stand-in for `util.mousePosition`. -/
def mousePosW : Unit → Point := fun _ => { top := 3, left := 4 }

/-- A concrete stand-in for the viewer element's css `{top, left}`. -/
def cssW : Point := { top := 1, left := 2 }

/-! ## Characterizations of the factory loops and the permissions maps -/

/-- The annotationFactory loop of `src/src/ui/main.js`, run to completion:
it appends, in selection order, the trimmed texts, the serialized ranges and
the `'serializedRange'` log entries to its accumulators. -/
theorem UiMain.annotationFactoryLoop_eq (contextEl : E) (ignoreSelector : String)
    (ranges : List (Range E SR)) :
    ∀ (text : List String) (acc : List SR) (logs : List (LogEvent SR U)),
      UiMain.annotationFactoryLoop contextEl ignoreSelector ranges text acc logs =
        (text ++ ranges.map (fun r => r.text.trim),
          acc ++ ranges.map (fun r => r.serialize contextEl ignoreSelector),
          logs ++ ranges.map (fun r =>
            LogEvent.serializedRangeLogged (r.serialize contextEl ignoreSelector))) := by
  induction ranges with
  | nil => intro text acc logs; simp [UiMain.annotationFactoryLoop]
  | cons r rest ih =>
      intro text acc logs
      simp [UiMain.annotationFactoryLoop, ih, List.append_assoc]

/-- The value and log output of `src/src/ui/main.js`'s annotationFactory. -/
theorem UiMain.annotationFactory_eq (contextEl : E) (ignoreSelector : String)
    (ranges : List (Range E SR)) :
    UiMain.annotationFactory contextEl ignoreSelector ranges =
      (({ ranges := ranges.map (fun r => r.serialize contextEl ignoreSelector),
          permissions := none } : Annot SR U),
        ranges.map fun r =>
          LogEvent.serializedRangeLogged (r.serialize contextEl ignoreSelector)) := by
  simp [UiMain.annotationFactory, UiMain.annotationFactoryLoop_eq]

/-- The annotationFactory loop of `src/unnamed/part_000`, run to
completion. -/
theorem UiMainP0.annotationFactoryLoop_eq_p0 (contextEl : E) (ignoreSelector : String)
    (ranges : List (Range E SR)) :
    ∀ (text : List String) (acc : List SR),
      UiMainP0.annotationFactoryLoop contextEl ignoreSelector ranges text acc =
        (text ++ ranges.map (fun r => r.text.trim),
          acc ++ ranges.map (fun r => r.serialize contextEl ignoreSelector)) := by
  induction ranges with
  | nil => intro text acc; simp [UiMainP0.annotationFactoryLoop]
  | cons r rest ih =>
      intro text acc
      simp [UiMainP0.annotationFactoryLoop, ih, List.append_assoc]

/-- The value of `src/unnamed/part_000`'s annotationFactory. -/
theorem UiMainP0.annotationFactory_eq_p0 (contextEl : E) (ignoreSelector : String)
    (ranges : List (Range E SR)) :
    UiMainP0.annotationFactory contextEl ignoreSelector ranges =
      ({ ranges := ranges.map (fun r => r.serialize contextEl ignoreSelector),
         permissions := none } : Annot SR U) := by
  simp [UiMainP0.annotationFactory, UiMainP0.annotationFactoryLoop_eq_p0]

/-- After JS `delete obj[k]`, looking up `k` finds nothing. -/
theorem permsLookup_permsRemove (ps : List (String × List U)) (k : String) :
    permsLookup (permsRemove ps k) k = none := by
  induction ps with
  | nil => rfl
  | cons p ps ih =>
      cases h : p.1 == k with
      | true => simp [permsRemove, List.filter_cons, h] at ih ⊢; exact ih
      | false => simp [permsRemove, permsLookup, List.filter_cons, h] at ih ⊢

/-- Setting a key on an association list whose head does not match just
keeps the head. -/
theorem permsSet_cons_ne (p : String × List U) (ps : List (String × List U))
    (k : String) (v : List U) (h : (p.1 == k) = false) :
    permsSet (p :: ps) k v = p :: permsSet ps k v := by
  have hne : p.1 ≠ k := by simpa using h
  by_cases h2 : ps.any (fun q => q.1 == k) <;>
    simp [permsSet, List.any_cons, h, hne, h2]

/-- After JS `obj[k] = v`, looking up `k` finds `v`. -/
theorem permsLookup_permsSet (ps : List (String × List U)) (k : String)
    (v : List U) : permsLookup (permsSet ps k v) k = some v := by
  induction ps with
  | nil => simp [permsSet, permsLookup]
  | cons p ps ih =>
      cases h : p.1 == k with
      | true =>
          have hpk : p.1 = k := by simpa using h
          have hstep : permsSet (p :: ps) k v =
              (k, v) :: (ps.map fun q => if q.1 == k then (k, v) else q) := by
            simp [permsSet, List.any_cons, h, hpk]
          rw [hstep]
          simp [permsLookup, List.find?_cons]
      | false =>
          rw [permsSet_cons_ne p ps k v h]
          have hskip : permsLookup (p :: permsSet ps k v) k =
              permsLookup (permsSet ps k v) k := by
            simp [permsLookup, List.find?_cons, h]
          rw [hskip]
          exact ih

/-! ## The claims -/

/-- C1: for every selection event delivering a non-empty list of ranges, the
onSelection handler installed by start builds an annotation whose `ranges`
list has exactly as many entries as the delivered range list (one serialized
range per selected range), in both variants of the module. -/
theorem C1_onSelection_builds_matching_ranges
    (mousePos : Ev → Point) (viewerCssTopLeft : Point)
    (opts : UiMain.ResolvedOptions E EExt VExt)
    (optsP0 : UiMainP0.ResolvedOptions E EExt VExt)
    (app : App SR U) (st s : ModState)
    (ranges : List (Range E SR)) (event : Ev)
    (h : 0 < ranges.length) :
    (∃ a : Annot SR U,
      ((UiMain.start mousePos viewerCssTopLeft opts app st).onSelection
          ranges event s).2.1 = [UIEffect.appCreate a] ∧
        a.ranges.length = ranges.length) ∧
    ∃ a : Annot SR U,
      ((UiMainP0.start mousePos viewerCssTopLeft optsP0 app st).onSelection
          ranges event s).2 = [UIEffect.adderLoad a (some (mousePos event))] ∧
        a.ranges.length = ranges.length := by
  constructor
  · refine ⟨{ ranges := ranges.map (fun r => r.serialize opts.element ".annotator-hl"),
              permissions := none }, ?_, ?_⟩
    · simp [UiMain.start, UiMain.annotationFactory_eq, h]
    · simp
  · refine ⟨{ ranges := ranges.map (fun r => r.serialize optsP0.element ".annotator-hl"),
              permissions := none }, ?_, ?_⟩
    · simp [UiMainP0.start, UiMainP0.annotationFactory_eq_p0, h]
    · simp

/-- C1's theorem at a concrete input: a one-range selection on the concrete
app, with every hypothesis discharged there. -/
theorem C1_onSelection_witness :
    0 < ([rangeW] : List (Range Nat Nat)).length ∧
    ((∃ a : Annot Nat Nat,
      ((UiMain.start mousePosW cssW optsW appW initState).onSelection
          [rangeW] () initState).2.1 = [UIEffect.appCreate a] ∧
        a.ranges.length = ([rangeW] : List (Range Nat Nat)).length) ∧
    ∃ a : Annot Nat Nat,
      ((UiMainP0.start mousePosW cssW optsP0W appW initState).onSelection
          [rangeW] () initState).2 =
          [UIEffect.adderLoad a (some (mousePosW ()))] ∧
        a.ranges.length = ([rangeW] : List (Range Nat Nat)).length) :=
  ⟨by decide,
    C1_onSelection_builds_matching_ranges mousePosW cssW optsW optsP0W appW
      initState initState [rangeW] () (by decide)⟩

/-- C2 (code bug): in `src/src/ui/main.js` the deferred returned by
beforeAnnotationCreated / beforeAnnotationUpdated is always resolved — the
`state.editor.load(...)` call that would reject on cancelled editing is
commented out — so no input makes it reject; in `src/unnamed/part_000` the
same callbacks return the editor's load result, which is rejected exactly
when editing is cancelled. -/
theorem C2_beforeAnnotationCreated_never_rejects
    (mousePos : Ev → Point) (documentBody : E) (viewerCssTopLeft : Point)
    (options : Option (Options E EExt VExt)) (ann : Annot SR U) (s : ModState) :
    (UiMain.main mousePos documentBody viewerCssTopLeft
        options).beforeAnnotationCreated ann = Deferred.resolved ∧
    (UiMain.main mousePos documentBody viewerCssTopLeft
        options).beforeAnnotationUpdated ann = Deferred.resolved ∧
    (UiMainP0.main mousePos documentBody viewerCssTopLeft
        options).beforeAnnotationCreated ann s true = Deferred.rejected ∧
    (UiMainP0.main mousePos documentBody viewerCssTopLeft
        options).beforeAnnotationUpdated ann s true = Deferred.rejected ∧
    (UiMainP0.main mousePos documentBody viewerCssTopLeft
        options).beforeAnnotationCreated ann s false = Deferred.resolved :=
  ⟨rfl, rfl, rfl, rfl, rfl⟩

/-- C3 (code bug): after start(app) from the module's initial state,
destroy() in `src/src/ui/main.js` dereferences `state.editor`, which start
never assigned (its first read throws); in `src/unnamed/part_000` every
collaborator field destroy reads was assigned by start and destroy
succeeds. -/
theorem C3_destroy_after_start
    (mousePos : Ev → Point) (viewerCssTopLeft : Point)
    (opts : UiMain.ResolvedOptions E EExt VExt)
    (optsP0 : UiMainP0.ResolvedOptions E EExt VExt)
    (app : App SR U) :
    UiMain.destroy
        ((UiMain.start mousePos viewerCssTopLeft opts app
          initState).state) = Except.error CollabField.editor ∧
      UiMainP0.destroy
        ((UiMainP0.start mousePos viewerCssTopLeft optsP0 app
          initState).state) = Except.ok () :=
  ⟨rfl, rfl⟩

/-- C4 counterexample: calling main of `src/src/ui/main.js` with no options
leaves `editorExtensions` undefined instead of defaulting it to the empty
list. -/
theorem C4_editorExtensions_not_defaulted :
    (UiMain.mainOptions (5 : Nat)
        (none : Option (Options Nat Nat Nat))).editorExtensions = none ∧
      (UiMain.mainOptions (5 : Nat)
        (none : Option (Options Nat Nat Nat))).editorExtensions ≠ some [] :=
  ⟨rfl, by decide⟩

/-- C4 (amended): main accepts exactly the recognized options `element`,
`editorExtensions` and `viewerExtensions` and returns a module object even
for undefined, null or partial options, defaulting `element` to
document.body and a missing `viewerExtensions` to the empty list; a missing
`editorExtensions` is defaulted to the empty list in `src/unnamed/part_000`
but left undefined (and unused) in `src/src/ui/main.js`. -/
theorem C4_mainOptions_defaults
    (mousePos : Ev → Point) (documentBody : E) (viewerCssTopLeft : Point)
    (o : Options E EExt VExt) :
    UiMain.mainOptions documentBody (none : Option (Options E EExt VExt)) =
        { element := documentBody, editorExtensions := none,
          viewerExtensions := [] } ∧
      UiMainP0.mainOptions documentBody (none : Option (Options E EExt VExt)) =
        { element := documentBody, editorExtensions := [],
          viewerExtensions := [] } ∧
      (UiMain.mainOptions documentBody (some o)).element =
        o.element.getD documentBody ∧
      (UiMain.mainOptions documentBody (some o)).editorExtensions =
        o.editorExtensions ∧
      (UiMain.mainOptions documentBody (some o)).viewerExtensions =
        o.viewerExtensions.getD [] ∧
      (UiMainP0.mainOptions documentBody (some o)).element =
        o.element.getD documentBody ∧
      (UiMainP0.mainOptions documentBody (some o)).editorExtensions =
        o.editorExtensions.getD [] ∧
      ((UiMain.main mousePos documentBody viewerCssTopLeft
          (none : Option (Options E EExt VExt))) :
        UiMain.AnnotatorModule E SR U Ev VExt).start =
        UiMain.start mousePos viewerCssTopLeft
          (UiMain.mainOptions documentBody
            (none : Option (Options E EExt VExt))) ∧
      ((UiMainP0.main mousePos documentBody viewerCssTopLeft
          (none : Option (Options E EExt VExt))) :
        UiMainP0.AnnotatorModule E SR U Ev VExt).start =
        UiMainP0.start mousePos viewerCssTopLeft
          (UiMainP0.mainOptions documentBody
            (none : Option (Options E EExt VExt))) :=
  ⟨rfl, rfl, rfl, rfl, rfl, rfl, rfl, rfl, rfl⟩

/-- C5: for every non-empty list of ranges the factory's annotation maps the
`ranges` key to the serialized selection ranges in selection order, and
carries no other key at creation time — `permissions` is absent and the
trimmed text collected per range is not part of the result — in both
variants. -/
theorem C5_annotationFactory_shape (contextEl : E) (ignoreSelector : String)
    (ranges : List (Range E SR)) (_h : ranges ≠ []) :
    (UiMain.annotationFactory contextEl ignoreSelector ranges).1 =
        ({ ranges := ranges.map (fun r => r.serialize contextEl ignoreSelector),
           permissions := none } : Annot SR U) ∧
      UiMainP0.annotationFactory contextEl ignoreSelector ranges =
        ({ ranges := ranges.map (fun r => r.serialize contextEl ignoreSelector),
           permissions := none } : Annot SR U) :=
  ⟨by simp [UiMain.annotationFactory_eq], by simp [UiMainP0.annotationFactory_eq_p0]⟩

/-- C5's theorem at a concrete one-range input. -/
theorem C5_annotationFactory_witness :
    ([rangeW] : List (Range Nat Nat)) ≠ [] ∧
    ((UiMain.annotationFactory (5 : Nat) ".annotator-hl" [rangeW]).1 =
        ({ ranges := [rangeW].map (fun r => r.serialize 5 ".annotator-hl"),
           permissions := none } : Annot Nat Nat) ∧
      UiMainP0.annotationFactory (5 : Nat) ".annotator-hl" [rangeW] =
        ({ ranges := [rangeW].map (fun r => r.serialize 5 ".annotator-hl"),
           permissions := none } : Annot Nat Nat)) :=
  ⟨List.cons_ne_nil rangeW [],
    C5_annotationFactory_shape 5 ".annotator-hl" [rangeW]
      (List.cons_ne_nil rangeW [])⟩

/-- C6: the object main returns provides exactly the eight lifecycle
methods (the fields of the AnnotatorModule structures), and each annotation
lifecycle callback dispatches to the corresponding highlighter operation:
annotationsLoaded to drawAll, annotationCreated to draw, annotationDeleted
to undraw, annotationUpdated to redraw — in both variants. -/
theorem C6_lifecycle_dispatch
    (mousePos : Ev → Point) (documentBody : E) (viewerCssTopLeft : Point)
    (options : Option (Options E EExt VExt))
    (anns : List (Annot SR U)) (ann : Annot SR U) :
    ((UiMain.main mousePos documentBody viewerCssTopLeft
          options).annotationsLoaded anns = HlOp.drawAll anns ∧
      (UiMain.main mousePos documentBody viewerCssTopLeft
          options).annotationCreated ann = HlOp.draw ann ∧
      (UiMain.main mousePos documentBody viewerCssTopLeft
          options).annotationDeleted ann = HlOp.undraw ann ∧
      (UiMain.main mousePos documentBody viewerCssTopLeft
          options).annotationUpdated ann = HlOp.redraw ann) ∧
    ((UiMainP0.main mousePos documentBody viewerCssTopLeft
          options).annotationsLoaded anns = HlOp.drawAll anns ∧
      (UiMainP0.main mousePos documentBody viewerCssTopLeft
          options).annotationCreated ann = HlOp.draw ann ∧
      (UiMainP0.main mousePos documentBody viewerCssTopLeft
          options).annotationDeleted ann = HlOp.undraw ann ∧
      (UiMainP0.main mousePos documentBody viewerCssTopLeft
          options).annotationUpdated ann = HlOp.redraw ann) :=
  ⟨⟨rfl, rfl, rfl, rfl⟩, ⟨rfl, rfl, rfl, rfl⟩⟩

/-- C7: start obtains the identity and authorization policies from app's
registry, and the viewer's permission queries consult only these:
permitEdit(ann) is permits('update', ann, who()) and permitDelete(ann) is
permits('delete', ann, who()) — in both variants. -/
theorem C7_viewer_permission_queries
    (mousePos : Ev → Point) (viewerCssTopLeft : Point)
    (opts : UiMain.ResolvedOptions E EExt VExt)
    (optsP0 : UiMainP0.ResolvedOptions E EExt VExt)
    (app : App SR U) (st : ModState) (ann : Annot SR U) :
    ((UiMain.start mousePos viewerCssTopLeft opts app
          st).viewerOptions.permitEdit ann =
        app.registry.authorizationPolicy.permits "update" ann
          app.registry.identityPolicy.who ∧
      (UiMain.start mousePos viewerCssTopLeft opts app
          st).viewerOptions.permitDelete ann =
        app.registry.authorizationPolicy.permits "delete" ann
          app.registry.identityPolicy.who) ∧
    ((UiMainP0.start mousePos viewerCssTopLeft optsP0 app
          st).viewerOptions.permitEdit ann =
        app.registry.authorizationPolicy.permits "update" ann
          app.registry.identityPolicy.who ∧
      (UiMainP0.start mousePos viewerCssTopLeft optsP0 app
          st).viewerOptions.permitDelete ann =
        app.registry.authorizationPolicy.permits "delete" ann
          app.registry.identityPolicy.who) :=
  ⟨⟨rfl, rfl⟩, ⟨rfl, rfl⟩⟩

/-- C8: for a permissions checkbox action, on editor submission with a
non-null current user u, a checked box removes the action's key from the
annotation's permissions and an unchecked box sets it to the one-element
list holding authorizedUserId(u); with no user set the annotation is left
entirely unchanged. -/
theorem C8_submitCallback_permissions
    (ident : IdentityPolicy U) (authz : AuthorizationPolicy SR U)
    (action : String) (checked : Bool) (ann : Annot SR U) :
    (ident.who = none →
      UiMainP0.createSubmitCallback ident authz action checked ann = ann) ∧
    (∀ u, ident.who = some u → checked = true →
      permsLookup ((UiMainP0.createSubmitCallback ident authz action checked
        ann).permissions.getD []) action = none) ∧
    (∀ u, ident.who = some u → checked = false →
      permsLookup ((UiMainP0.createSubmitCallback ident authz action checked
        ann).permissions.getD []) action = some [authz.authorizedUserId u]) := by
  refine ⟨fun hw => ?_, fun u hw hc => ?_, fun u hw hc => ?_⟩
  · simp [UiMainP0.createSubmitCallback, hw]
  · subst hc
    simp [UiMainP0.createSubmitCallback, hw, permsLookup_permsRemove]
  · subst hc
    simp [UiMainP0.createSubmitCallback, hw, permsLookup_permsSet]

/-- C8's theorem at a concrete input: user 7 submits with the box
unchecked, so the `read` permission becomes the one-element list `[7]`. -/
theorem C8_submitCallback_witness :
    identW.who = some 7 ∧
    permsLookup ((UiMainP0.createSubmitCallback identW authzW "read" false
      annW).permissions.getD []) "read" = some [authzW.authorizedUserId 7] :=
  ⟨rfl, (C8_submitCallback_permissions identW authzW "read" false annW).2.2
    7 rfl rfl⟩

/-- C9: for every selection event delivering an empty range list, the
onSelection handler never initiates annotation creation: no annotation is
built and no create call is issued — the `src/src/ui/main.js` handler does
nothing at all, and the `src/unnamed/part_000` handler only hides the
adder. -/
theorem C9_empty_selection_no_create
    (mousePos : Ev → Point) (viewerCssTopLeft : Point)
    (opts : UiMain.ResolvedOptions E EExt VExt)
    (optsP0 : UiMainP0.ResolvedOptions E EExt VExt)
    (app : App SR U) (st s : ModState) (event : Ev) :
    (UiMain.start mousePos viewerCssTopLeft opts app st).onSelection
        [] event s = (s, [], []) ∧
      (UiMainP0.start mousePos viewerCssTopLeft optsP0 app st).onSelection
        [] event s = (s, [UIEffect.adderHide]) :=
  ⟨rfl, rfl⟩

/-- C10: the annotationFactory of `src/src/ui/main.js` and the
annotationFactory of `src/unnamed/part_000` are extensionally equal on
every context element, ignore selector and range list — the console logging
of the former changes only the log channel, never the returned
annotation. -/
theorem C10_annotationFactory_equiv (contextEl : E) (ignoreSelector : String)
    (ranges : List (Range E SR)) :
    (UiMain.annotationFactory contextEl ignoreSelector ranges).1 =
      (UiMainP0.annotationFactory contextEl ignoreSelector ranges
        : Annot SR U) := by
  simp [UiMain.annotationFactory_eq, UiMainP0.annotationFactory_eq_p0]

end Annotator
